import Mathlib

/-
Verification of the garmin-dashboard metric core against its specification.

The development shallowly embeds the two core components:
  - the series normalizer, from src/garmin_dashboard/fit_parser.py
    (parse_fit_to_dataframe), which collects the recognized fields of
    each record and stores their raw values in a DataFrame; the
    channel-wide numeric coercion (pd.to_numeric with errors="coerce",
    src/garmin_dashboard/analytics.py, lines 20-22) is a separate step
    that the metrics engine applies to the heart_rate, cadence and
    speed columns only — timestamp, distance and altitude are never
    coerced by any code path;
  - the metrics engine, from src/garmin_dashboard/analytics.py
    (compute_performance_metrics and its helpers).

Modelling conventions:
  - numeric sample values are exact rationals; a missing value (pandas NaN
    slot in a channel) is Option.none;
  - pandas Series.mean / Series.max skip NaN, so they are embedded as
    mean / max over the list of non-missing values, with none for the
    all-missing case (pandas returns NaN there, which _round_or_none then
    maps to None);
  - the per-row division of _compute_aerobic_decoupling is not guarded
    against a zero heart_rate, so IEEE special values can arise there.
    That fragment is embedded over EFloat, an extended value type with
    fin, plus and minus infinity and nan, whose operations follow IEEE
    semantics for the cases reachable in the code;
  - the sample standard deviation of _compute_cadence_consistency is a
    real square root, so that helper is valued in the reals;
  - Python round(x, 2) is embedded as exact round-half-to-even at two
    decimal places on the mathematical value.
-/

namespace Garmin

/-- A raw field value of a decoded FIT record: either a value that
pd.to_numeric can interpret as a number, or one it cannot (which the
channel-wide coercion with errors="coerce" turns into NaN). -/
inductive RawVal where
  | num (q : ℚ)
  | bad
deriving DecidableEq

/-- A raw record restricted to the six recognized fields of
parse_fit_to_dataframe (fit_parser.py, lines 20-27).  Fields outside the
wanted set are ignored by the extraction loop, so a source record holding
only unrecognized fields is modelled as the all-absent record. -/
structure RawRecord where
  timestamp : Option RawVal
  heart_rate : Option RawVal
  cadence : Option RawVal
  distance : Option RawVal
  speed : Option RawVal
  altitude : Option RawVal
deriving DecidableEq

/-- True when the extraction loop of fit_parser.py collects at least one
wanted field from the record, i.e. the built row dict is nonempty. -/
def RawRecord.hasAny (r : RawRecord) : Bool :=
  r.timestamp.isSome || r.heart_rate.isSome || r.cadence.isSome ||
    r.distance.isSome || r.speed.isSome || r.altitude.isSome

/-- The row-collection loop of parse_fit_to_dataframe (fit_parser.py,
lines 29-36): each record is reduced to its wanted fields, and the row is
appended only when it is nonempty (the `if row:` test on line 35). -/
def parse_rows : List RawRecord → List RawRecord
  | [] => []
  | r :: rs => if r.hasAny then r :: parse_rows rs else parse_rows rs

/-- Channel-wide numeric coercion: the per-slot effect of
pd.to_numeric(column, errors="coerce").  An absent field or a value that
cannot be interpreted as a number becomes missing. -/
def coerce_numeric : Option RawVal → Option ℚ
  | some (RawVal.num q) => some q
  | _ => none

/-- A normalized series in the sense of spec section 3: the six fixed
channels with one numeric-or-missing slot per record.  This is the
universe the metric claims quantify over; on such input the channel-wide
pd.to_numeric coercion of analytics.py, lines 20-22, is the identity. -/
structure Series where
  timestamp : List (Option ℚ)
  heart_rate : List (Option ℚ)
  cadence : List (Option ℚ)
  distance : List (Option ℚ)
  speed : List (Option ℚ)
  altitude : List (Option ℚ)
deriving DecidableEq

/-- The invariant of a normalized series: all six channels have equal
length (spec section 3, alignment by record index). -/
def Series.Normalized (s : Series) : Prop :=
  s.heart_rate.length = s.timestamp.length ∧
  s.cadence.length = s.timestamp.length ∧
  s.distance.length = s.timestamp.length ∧
  s.speed.length = s.timestamp.length ∧
  s.altitude.length = s.timestamp.length

instance (s : Series) : Decidable s.Normalized := by
  unfold Series.Normalized; infer_instance

/-- Row count of the series, the pandas len(df); df.empty is nrows = 0. -/
def Series.nrows (s : Series) : ℕ := s.timestamp.length

/-- The DataFrame built by parse_fit_to_dataframe (fit_parser.py,
lines 38-49): the six fixed columns in order, each slot holding the raw
stored field value of a kept record, or missing (the NaN pandas fills in
for a key the row dict lacks) when the field was absent.  No numeric
coercion happens here: an unparseable value is stored as is. -/
structure RawFrame where
  timestamp : List (Option RawVal)
  heart_rate : List (Option RawVal)
  cadence : List (Option RawVal)
  distance : List (Option RawVal)
  speed : List (Option RawVal)
  altitude : List (Option RawVal)
deriving DecidableEq

/-- parse_fit_to_dataframe (fit_parser.py, lines 9-49): collect the
wanted fields of each record, drop a record whose row dict is empty
(the `if row:` test on line 35), and lay the kept rows out as the six
fixed columns holding the raw values. -/
def parse_fit_to_dataframe (records : List RawRecord) : RawFrame :=
  let rows := parse_rows records
  { timestamp := rows.map (fun r => r.timestamp)
    heart_rate := rows.map (fun r => r.heart_rate)
    cadence := rows.map (fun r => r.cadence)
    distance := rows.map (fun r => r.distance)
    speed := rows.map (fun r => r.speed)
    altitude := rows.map (fun r => r.altitude) }

/-- pd.to_numeric(column, errors="coerce") as the metrics engine applies
it (analytics.py, lines 20-22): the channel-wide coercion of one column.
The engine applies it to the heart_rate, cadence and speed columns only;
timestamp, distance and altitude are never coerced by any code path. -/
def to_numeric (col : List (Option RawVal)) : List (Option ℚ) :=
  col.map coerce_numeric

/-- Arithmetic mean of a list of rationals (pandas Series.mean over the
non-missing values). -/
def mean (l : List ℚ) : ℚ := l.sum / l.length

/-- Pandas Series.mean with skipna: NaN (here: the empty list of
surviving values) propagates as none. -/
def meanOpt (l : List ℚ) : Option ℚ :=
  if l = [] then none else some (mean l)

/-- Round-half-to-even to an integer, the rounding of Python round. -/
def roundHalfEven (q : ℚ) : ℤ :=
  let n := ⌊q⌋
  let r := q - n
  if r < 1/2 then n
  else if 1/2 < r then n + 1
  else if n % 2 = 0 then n else n + 1

/-- Python round(x, 2) on the exact value. -/
def round2 (q : ℚ) : ℚ := (roundHalfEven (q * 100) : ℚ) / 100

/-- _round_or_none (analytics.py, lines 102-105) at rational type: None
and NaN are both embedded as none, and a present finite value is rounded
to two decimal places. -/
def _round_or_none (v : Option ℚ) : Option ℚ :=
  v.map (fun q => round2 q)

/-- _compute_hr_drift (analytics.py, lines 42-52).  dropna keeps the
non-missing values in order; iloc slicing is take / drop at the floored
midpoint; a NaN half mean (empty half) or NaN final value maps to None
through the pd.isna guard and _round_or_none. -/
def _compute_hr_drift (heart_rate : List (Option ℚ)) : Option ℚ :=
  let clean := heart_rate.filterMap id
  if clean.length < 4 then none
  else
    let midpoint := clean.length / 2
    match meanOpt (clean.take midpoint) with
    | none => none
    | some first =>
      if first = 0 then none
      else
        match meanOpt (clean.drop midpoint) with
        | none => none
        | some second => some (round2 ((second - first) / first * 100))

/-- _compute_pace_hr_ratio (analytics.py, lines 55-67).  Speed and
heart_rate are cleaned independently; either empty set, a NaN mean, or a
zero average heart rate yields None. -/
def _compute_pace_hr_ratio (speed heart_rate : List (Option ℚ)) :
    Option ℚ :=
  let clean_speed := speed.filterMap id
  let clean_hr := heart_rate.filterMap id
  if clean_speed = [] ∨ clean_hr = [] then none
  else
    match meanOpt clean_speed, meanOpt clean_hr with
    | some avg_speed, some avg_hr =>
      if avg_hr = 0 then none else some (round2 (avg_speed / avg_hr))
    | _, _ => none

/-- An IEEE-style extended value: a finite rational, one of the two
infinities, or nan.  This embeds the float values reachable inside
_compute_aerobic_decoupling, where the per-row division speed/heart_rate
is not guarded against a zero denominator. -/
inductive EFloat where
  | fin (q : ℚ)
  | pinf
  | ninf
  | nan
deriving DecidableEq

namespace EFloat

/-- pd.isna: true exactly on nan (false on the infinities). -/
def isna : EFloat → Bool
  | nan => true
  | _ => false

/-- IEEE negation. -/
def neg : EFloat → EFloat
  | fin q => fin (-q)
  | pinf => ninf
  | ninf => pinf
  | nan => nan

/-- IEEE addition for the cases arising here; opposite infinities give
nan, and nan is absorbing. -/
def add : EFloat → EFloat → EFloat
  | nan, _ => nan
  | _, nan => nan
  | fin a, fin b => fin (a + b)
  | fin _, pinf => pinf
  | fin _, ninf => ninf
  | pinf, fin _ => pinf
  | ninf, fin _ => ninf
  | pinf, pinf => pinf
  | ninf, ninf => ninf
  | pinf, ninf => nan
  | ninf, pinf => nan

/-- IEEE subtraction. -/
def sub (a b : EFloat) : EFloat := add a (neg b)

/-- IEEE multiplication; infinity times zero gives nan. -/
def mul : EFloat → EFloat → EFloat
  | nan, _ => nan
  | _, nan => nan
  | fin a, fin b => fin (a * b)
  | fin a, pinf => if 0 < a then pinf else if a < 0 then ninf else nan
  | fin a, ninf => if 0 < a then ninf else if a < 0 then pinf else nan
  | pinf, fin b => if 0 < b then pinf else if b < 0 then ninf else nan
  | ninf, fin b => if 0 < b then ninf else if b < 0 then pinf else nan
  | pinf, pinf => pinf
  | pinf, ninf => ninf
  | ninf, pinf => ninf
  | ninf, ninf => pinf

/-- IEEE division; a nonzero finite value divided by zero gives a signed
infinity (the rational zero behaves as the positive float zero), zero
divided by zero gives nan, and infinity divided by infinity gives nan. -/
def div : EFloat → EFloat → EFloat
  | nan, _ => nan
  | _, nan => nan
  | fin a, fin b =>
    if b = 0 then (if 0 < a then pinf else if a < 0 then ninf else nan)
    else fin (a / b)
  | fin _, pinf => fin 0
  | fin _, ninf => fin 0
  | pinf, fin b => if 0 ≤ b then pinf else ninf
  | ninf, fin b => if 0 ≤ b then ninf else pinf
  | pinf, pinf => nan
  | pinf, ninf => nan
  | ninf, pinf => nan
  | ninf, ninf => nan

end EFloat

/-- Pandas sum over extended values (nan entries already removed by the
caller): a fold of IEEE addition starting from zero. -/
def esum (l : List EFloat) : EFloat := l.foldl EFloat.add (EFloat.fin 0)

/-- Pandas Series.mean over extended values with skipna: nan entries are
skipped; the mean of no surviving entries is nan; otherwise the IEEE sum
of the survivors divided by their count. -/
def emean (l : List EFloat) : EFloat :=
  let v := l.filter (fun x => !x.isna)
  if v.length = 0 then EFloat.nan
  else EFloat.div (esum v) (EFloat.fin v.length)

/-- _round_or_none (analytics.py, lines 102-105) at extended type: None
and NaN give None; pd.isna is false on the infinities and Python
round(x, 2) returns an infinite x unchanged, so a signed infinity is
passed through; a finite value is rounded to two decimals. -/
def _round_or_noneE (v : EFloat) : Option EFloat :=
  match v with
  | EFloat.nan => none
  | EFloat.pinf => some EFloat.pinf
  | EFloat.ninf => some EFloat.ninf
  | EFloat.fin q => some (EFloat.fin (round2 q))

/-- The joint table of _compute_aerobic_decoupling (analytics.py,
line 86): pd.DataFrame of the speed and heart_rate columns followed by
dropna, i.e. the ordered rows where both channels are non-missing. -/
def jointRows (speed heart_rate : List (Option ℚ)) : List (ℚ × ℚ) :=
  (speed.zip heart_rate).filterMap
    (fun p =>
      match p with
      | (some a, some b) => some (a, b)
      | _ => none)

/-- The efficiency column temp_df["eff"] (analytics.py, line 90): the
per-row float division speed/heart_rate over the joint rows. -/
def effSeq (speed heart_rate : List (Option ℚ)) : List EFloat :=
  (jointRows speed heart_rate).map
    (fun p => EFloat.div (EFloat.fin p.1) (EFloat.fin p.2))

/-- _compute_aerobic_decoupling (analytics.py, lines 85-99).  The per-row
efficiency speed/heart_rate is an unguarded float division, so the
efficiency column and both half means live in EFloat; the guard on
line 95 tests pd.isna of either half mean and equality of the first with
zero. -/
def _compute_aerobic_decoupling (speed heart_rate : List (Option ℚ)) :
    Option EFloat :=
  let joint := jointRows speed heart_rate
  if joint.length < 4 then none
  else
    let eff := effSeq speed heart_rate
    let midpoint := joint.length / 2
    let first_eff := emean (eff.take midpoint)
    let second_eff := emean (eff.drop midpoint)
    if first_eff.isna ∨ first_eff = EFloat.fin 0 ∨ second_eff.isna then
      none
    else
      _round_or_noneE
        (EFloat.mul (EFloat.div (EFloat.sub first_eff second_eff) first_eff)
          (EFloat.fin 100))

/-- Sample variance with denominator n - 1, the square of pandas
Series.std with its default ddof of one (guarded by the caller so that at
least two samples survive). -/
def sampleVar (l : List ℚ) : ℚ :=
  (l.map (fun x => (x - mean l) ^ 2)).sum / ((l.length : ℚ) - 1)

/-- Pandas Series.std: the square root of the sample variance. -/
noncomputable def sampleStd (l : List ℚ) : ℝ :=
  Real.sqrt ((sampleVar l : ℚ) : ℝ)

/-- Round-half-to-even on a real value. -/
noncomputable def roundHalfEvenR (x : ℝ) : ℤ :=
  if x - ⌊x⌋ < 1/2 then ⌊x⌋
  else if 1/2 < x - ⌊x⌋ then ⌊x⌋ + 1
  else if ⌊x⌋ % 2 = 0 then ⌊x⌋ else ⌊x⌋ + 1

/-- Python round(x, 2) on a real value. -/
noncomputable def round2R (x : ℝ) : ℝ := (roundHalfEvenR (x * 100) : ℝ) / 100

/-- _compute_cadence_consistency (analytics.py, lines 70-82).  The
standard deviation is a real square root; with at least two surviving
rational samples neither the mean nor the deviation can be NaN, so the
remaining guard is the zero mean. -/
noncomputable def _compute_cadence_consistency
    (cadence : List (Option ℚ)) : Option ℝ :=
  let clean := cadence.filterMap id
  if clean.length < 2 then none
  else
    let avg := mean clean
    let std := sampleStd clean
    if avg = 0 then none
    else some (round2R (max 0 (100 - std / (avg : ℝ) * 100)))

/-- The metrics record (spec section 3): six named optional fields; the
aerobic decoupling field is extended-valued because the code can build
IEEE special values there, and the cadence field is real-valued because
of the square root. -/
structure MetricsRecord where
  avg_hr : Option ℚ
  max_hr : Option ℚ
  hr_drift_pct : Option ℚ
  pace_hr_ratio : Option ℚ
  cadence_consistency_pct : Option ℝ
  aerobic_decoupling_pct : Option EFloat

/-- The all-undefined record returned for an empty input
(analytics.py, lines 10-18). -/
def MetricsRecord.undef : MetricsRecord :=
  { avg_hr := none
    max_hr := none
    hr_drift_pct := none
    pace_hr_ratio := none
    cadence_consistency_pct := none
    aerobic_decoupling_pct := none }

/-- compute_performance_metrics (analytics.py, lines 8-39).  On a
normalized series the channel-wide pd.to_numeric coercion of lines 20-22
is the identity, heart_rate.mean() and heart_rate.max() skip NaN, and
each helper receives only the channels it reads. -/
noncomputable def compute_performance_metrics (df : Series) :
    MetricsRecord :=
  if df.nrows = 0 then MetricsRecord.undef
  else
    { avg_hr := _round_or_none (meanOpt (df.heart_rate.filterMap id))
      max_hr := _round_or_none ((df.heart_rate.filterMap id).max?)
      hr_drift_pct := _compute_hr_drift df.heart_rate
      pace_hr_ratio := _compute_pace_hr_ratio df.speed df.heart_rate
      cadence_consistency_pct := _compute_cadence_consistency df.cadence
      aerobic_decoupling_pct :=
        _compute_aerobic_decoupling df.speed df.heart_rate }

/-
Stateful view for the frame claim.  A pandas DataFrame is an object on a
heap; the one statement in the whole metrics engine that writes into an
existing object is the column assignment temp_df["eff"] = ...
(analytics.py, line 90), and its target temp_df is freshly allocated
inside the call.  The heap-threaded embedding below makes the object
identities explicit so that preservation of the argument is a real
statement rather than one true by construction.
-/

/-- A DataFrame object on the heap: named columns of extended values
(a missing slot is nan, as in a float column). -/
abbrev DF : Type := List (String × List EFloat)

/-- Column lookup; a missing column reads as empty. -/
def getCol (d : DF) (name : String) : List EFloat :=
  match d.find? (fun c => c.1 = name) with
  | some c => c.2
  | none => []

/-- Column assignment d[name] = v: replace the column when present,
append it otherwise. -/
def setCol (d : DF) (name : String) (v : List EFloat) : DF :=
  if (d.find? (fun c => c.1 = name)).isSome then
    d.map (fun c => if c.1 = name then (c.1, v) else c)
  else d ++ [(name, v)]

/-- The heap: allocated DataFrame objects, addressed by position. -/
abbrev Heap : Type := List DF

/-- Conversion of a float column to an optional-rational channel: nan is
the missing slot. -/
def toOptQ : EFloat → Option ℚ
  | EFloat.fin q => some q
  | _ => none

/-- The joint dropna of line 86 directly on float columns: keep the rows
where neither entry is nan. -/
def dropnaRows (sp hr : List EFloat) : List (EFloat × EFloat) :=
  (sp.zip hr).filter (fun p => !p.1.isna && !p.2.isna)

/-- _compute_aerobic_decoupling (analytics.py, lines 85-99) with the
heap explicit: a fresh temp object holding the joint columns is
allocated at the end of the heap, and the eff column assignment of
line 90 writes into that fresh object only. -/
def _compute_aerobic_decoupling_st (h : Heap) (dfi : ℕ) :
    Option EFloat × Heap :=
  let df := h.getD dfi []
  let joint := dropnaRows (getCol df "speed") (getCol df "heart_rate")
  let temp : DF :=
    [("speed", joint.map Prod.fst), ("heart_rate", joint.map Prod.snd)]
  let h1 := h ++ [temp]
  let ti := h.length
  if joint.length < 4 then (none, h1)
  else
    let eff := joint.map (fun p => EFloat.div p.1 p.2)
    let h2 := h1.set ti (setCol (h1.getD ti []) "eff" eff)
    let midpoint := joint.length / 2
    let first_eff := emean (eff.take midpoint)
    let second_eff := emean (eff.drop midpoint)
    if first_eff.isna ∨ first_eff = EFloat.fin 0 ∨ second_eff.isna then
      (none, h2)
    else
      (_round_or_noneE
        (EFloat.mul (EFloat.div (EFloat.sub first_eff second_eff) first_eff)
          (EFloat.fin 100)), h2)

/-- compute_performance_metrics (analytics.py, lines 8-39) with the heap
explicit.  Every helper except the aerobic one only reads the argument
object; the aerobic helper threads the heap. -/
noncomputable def compute_performance_metrics_st (h : Heap) (dfi : ℕ) :
    MetricsRecord × Heap :=
  let df := h.getD dfi []
  if (getCol df "timestamp").length = 0 then (MetricsRecord.undef, h)
  else
    let hr := (getCol df "heart_rate").map toOptQ
    let cad := (getCol df "cadence").map toOptQ
    let sp := (getCol df "speed").map toOptQ
    let res := _compute_aerobic_decoupling_st h dfi
    ({ avg_hr := _round_or_none (meanOpt (hr.filterMap id))
       max_hr := _round_or_none ((hr.filterMap id).max?)
       hr_drift_pct := _compute_hr_drift hr
       pace_hr_ratio := _compute_pace_hr_ratio sp hr
       cadence_consistency_pct := _compute_cadence_consistency cad
       aerobic_decoupling_pct := res.1 }, res.2)

/-
Helper lemmas shared by the claim theorems.
-/

theorem parse_rows_eq_filter (records : List RawRecord) :
    parse_rows records = records.filter (fun r => r.hasAny) := by
  induction records with
  | nil => rfl
  | cons r rs ih =>
    by_cases h : r.hasAny
    · simp [parse_rows, h, ih]
    · simp [parse_rows, h, ih]

theorem compute_empty {s : Series} (h : s.nrows = 0) :
    compute_performance_metrics s = MetricsRecord.undef := by
  simp [compute_performance_metrics, h]

theorem compute_nonempty {s : Series} (h : s.nrows ≠ 0) :
    compute_performance_metrics s =
      { avg_hr := _round_or_none (meanOpt (s.heart_rate.filterMap id))
        max_hr := _round_or_none ((s.heart_rate.filterMap id).max?)
        hr_drift_pct := _compute_hr_drift s.heart_rate
        pace_hr_ratio := _compute_pace_hr_ratio s.speed s.heart_rate
        cadence_consistency_pct := _compute_cadence_consistency s.cadence
        aerobic_decoupling_pct :=
          _compute_aerobic_decoupling s.speed s.heart_rate } := by
  simp [compute_performance_metrics, h]

theorem nrows_ne_zero_of_hr {s : Series} (hn : s.Normalized)
    (h : s.heart_rate ≠ []) : s.nrows ≠ 0 := by
  intro h0
  apply h
  have hlen := hn.1
  rw [Series.nrows] at h0
  rw [h0] at hlen
  exact List.length_eq_zero.mp hlen

theorem nrows_ne_zero_of_speed {s : Series} (hn : s.Normalized)
    (h : s.speed ≠ []) : s.nrows ≠ 0 := by
  intro h0
  apply h
  have hlen := hn.2.2.2.1
  rw [Series.nrows] at h0
  rw [h0] at hlen
  exact List.length_eq_zero.mp hlen

theorem nrows_ne_zero_of_cadence {s : Series} (hn : s.Normalized)
    (h : s.cadence ≠ []) : s.nrows ≠ 0 := by
  intro h0
  apply h
  have hlen := hn.2.1
  rw [Series.nrows] at h0
  rw [h0] at hlen
  exact List.length_eq_zero.mp hlen

theorem clean_ne_nil {l : List (Option ℚ)}
    (h : l.filterMap id ≠ []) : l ≠ [] := by
  intro h0
  exact h (by simp [h0])

theorem hr_drift_none_short {hr : List (Option ℚ)}
    (h : (hr.filterMap id).length < 4) : _compute_hr_drift hr = none := by
  simp [_compute_hr_drift, h]

theorem hr_drift_none_first_zero {hr : List (Option ℚ)}
    (h : mean ((hr.filterMap id).take ((hr.filterMap id).length / 2)) = 0) :
    _compute_hr_drift hr = none := by
  unfold _compute_hr_drift
  by_cases h4 : (hr.filterMap id).length < 4
  · simp [h4]
  · simp only [h4, if_false]
    unfold meanOpt
    by_cases he : (hr.filterMap id).take ((hr.filterMap id).length / 2) = []
    · simp [he]
    · simp [he, h]

theorem max?_spec {l : List ℚ} {m : ℚ} (h : l.max? = some m) :
    m ∈ l ∧ ∀ x ∈ l, x ≤ m := by
  refine ⟨List.max?_mem (fun a b => max_choice a b) h, ?_⟩
  intro x hx
  exact (List.max?_le_iff (fun a b c => max_le_iff) h).1 le_rfl x hx

theorem filterMap_id_some (a : ℚ) (l : List (Option ℚ)) :
    List.filterMap id (some a :: l) = a :: List.filterMap id l := rfl

theorem filterMap_id_none (l : List (Option ℚ)) :
    List.filterMap id (none :: l) = List.filterMap id l := rfl

theorem meanOpt_of_ne_nil {l : List ℚ} (h : l ≠ []) :
    meanOpt l = some (mean l) := by
  simp [meanOpt, h]

theorem meanOpt_eq {l : List ℚ} {q : ℚ} (h : meanOpt l = some q) :
    q = l.sum / (l.length : ℚ) := by
  unfold meanOpt at h
  split at h
  · cases h
  · cases h
    rfl

theorem pace_none_guard {sp hr : List (Option ℚ)}
    (h : sp.filterMap id = [] ∨ hr.filterMap id = [] ∨
      mean (hr.filterMap id) = 0) :
    _compute_pace_hr_ratio sp hr = none := by
  unfold _compute_pace_hr_ratio
  rcases h with h | h | h
  · simp [h]
  · simp [h]
  · by_cases hs : sp.filterMap id = []
    · simp [hs]
    · by_cases hh : hr.filterMap id = []
      · simp [hh]
      · simp [hs, hh, meanOpt, h]

theorem cadence_none_guard {cad : List (Option ℚ)}
    (h : (cad.filterMap id).length < 2 ∨ mean (cad.filterMap id) = 0) :
    _compute_cadence_consistency cad = none := by
  unfold _compute_cadence_consistency
  rcases h with h | h
  · simp [h]
  · by_cases h2 : (cad.filterMap id).length < 2
    · simp [h2]
    · simp [h2, h]

theorem aerobic_none_short {sp hr : List (Option ℚ)}
    (h : (jointRows sp hr).length < 4) :
    _compute_aerobic_decoupling sp hr = none := by
  simp [_compute_aerobic_decoupling, h]

theorem EFloat.sub_fin (a b : ℚ) :
    EFloat.sub (EFloat.fin a) (EFloat.fin b) = EFloat.fin (a - b) := by
  simp [EFloat.sub, EFloat.neg, EFloat.add, sub_eq_add_neg]

theorem EFloat.div_fin {a b : ℚ} (h : b ≠ 0) :
    EFloat.div (EFloat.fin a) (EFloat.fin b) = EFloat.fin (a / b) := by
  simp [EFloat.div, h]

theorem EFloat.mul_fin (a b : ℚ) :
    EFloat.mul (EFloat.fin a) (EFloat.fin b) = EFloat.fin (a * b) := rfl

theorem roundHalfEvenR_nonneg {x : ℝ} (h : 0 ≤ x) :
    0 ≤ roundHalfEvenR x := by
  have hf : (0 : ℤ) ≤ ⌊x⌋ := Int.floor_nonneg.mpr h
  unfold roundHalfEvenR
  split
  · exact hf
  · split
    · omega
    · split <;> omega

theorem round2R_nonneg {x : ℝ} (h : 0 ≤ x) : 0 ≤ round2R x := by
  unfold round2R
  have h1 : (0 : ℝ) ≤ (roundHalfEvenR (x * 100) : ℝ) := by
    exact_mod_cast roundHalfEvenR_nonneg (by positivity)
  positivity

/-
Claim theorems.
-/

/-- A raw record none of whose six recognized fields is present, as
produced by a source record carrying only unrecognized field names. -/
def emptyRawRecord : RawRecord :=
  { timestamp := none, heart_rate := none, cadence := none,
    distance := none, speed := none, altitude := none }

/-- Claim C1 is false as stated: on the one-record input whose record
carries no recognized field, the extraction loop builds an empty row
dict, the `if row:` test on fit_parser.py line 35 drops it, and every
channel of the resulting frame has length zero instead of one, so an
input row is dropped and the channel lengths do not equal the input
record count. -/
theorem claim_C1_counterexample :
    (parse_fit_to_dataframe [emptyRawRecord]).heart_rate.length = 0 ∧
    ¬ (parse_fit_to_dataframe [emptyRawRecord]).heart_rate.length =
      1 := by
  decide

/-- Claim C1 as amended: parse_fit_to_dataframe keeps, in order,
exactly the input records carrying at least one recognized field (a
record carrying none is dropped), and stores the raw field values, a
slot being missing exactly when the field is absent; the channel-wide
numeric coercion is applied by the metrics engine to the heart_rate,
cadence and speed columns only, and in those coerced channels a slot is
missing if and only if the field is absent or its value cannot be
interpreted as a number, and holds the coerced numeric value otherwise;
timestamp, distance and altitude are never coerced, so an unparseable
raw value in those channels stays in the frame; no error is raised on
malformed input. -/
theorem claim_C1_amended (records : List RawRecord) :
    (parse_fit_to_dataframe records).timestamp =
      (records.filter (fun r => r.hasAny)).map (fun r => r.timestamp) ∧
    (parse_fit_to_dataframe records).heart_rate =
      (records.filter (fun r => r.hasAny)).map
        (fun r => r.heart_rate) ∧
    (parse_fit_to_dataframe records).cadence =
      (records.filter (fun r => r.hasAny)).map (fun r => r.cadence) ∧
    (parse_fit_to_dataframe records).distance =
      (records.filter (fun r => r.hasAny)).map (fun r => r.distance) ∧
    (parse_fit_to_dataframe records).speed =
      (records.filter (fun r => r.hasAny)).map (fun r => r.speed) ∧
    (parse_fit_to_dataframe records).altitude =
      (records.filter (fun r => r.hasAny)).map (fun r => r.altitude) ∧
    (parse_fit_to_dataframe records).heart_rate.length =
      (records.filter (fun r => r.hasAny)).length ∧
    to_numeric (parse_fit_to_dataframe records).heart_rate =
      (records.filter (fun r => r.hasAny)).map
        (fun r => coerce_numeric r.heart_rate) ∧
    to_numeric (parse_fit_to_dataframe records).cadence =
      (records.filter (fun r => r.hasAny)).map
        (fun r => coerce_numeric r.cadence) ∧
    to_numeric (parse_fit_to_dataframe records).speed =
      (records.filter (fun r => r.hasAny)).map
        (fun r => coerce_numeric r.speed) ∧
    (∀ v : Option RawVal,
      (coerce_numeric v = none ↔ v = none ∨ v = some RawVal.bad) ∧
      ∀ q : ℚ, coerce_numeric v = some q ↔ v = some (RawVal.num q)) := by
  refine ⟨?_, ?_, ?_, ?_, ?_, ?_, ?_, ?_, ?_, ?_, ?_⟩
  · simp [parse_fit_to_dataframe, parse_rows_eq_filter]
  · simp [parse_fit_to_dataframe, parse_rows_eq_filter]
  · simp [parse_fit_to_dataframe, parse_rows_eq_filter]
  · simp [parse_fit_to_dataframe, parse_rows_eq_filter]
  · simp [parse_fit_to_dataframe, parse_rows_eq_filter]
  · simp [parse_fit_to_dataframe, parse_rows_eq_filter]
  · simp [parse_fit_to_dataframe, parse_rows_eq_filter]
  · simp [to_numeric, parse_fit_to_dataframe, parse_rows_eq_filter,
      List.map_map]
  · simp [to_numeric, parse_fit_to_dataframe, parse_rows_eq_filter,
      List.map_map]
  · simp [to_numeric, parse_fit_to_dataframe, parse_rows_eq_filter,
      List.map_map]
  · intro v
    rcases v with _ | v
    · simp [coerce_numeric]
    · cases v <;> simp [coerce_numeric]

/-- Claim C2 fails on the code: with speeds 1,1,1,1 and heart rates
1,1,1,0 there are four joint rows, the last efficiency is the float
1/0 = plus infinity sitting in the second half, the second half mean is
plus infinity, the guard on analytics.py line 95 does not fire because
pd.isna is false on infinities and the first half mean is the finite 1,
and the final expression ((1 - inf)/1)*100 = minus infinity passes
through _round_or_none unchanged: the metric field is a non-finite
number, not the undefined marker. -/
theorem claim_C2_code_bug :
    _compute_aerobic_decoupling
        [some 1, some 1, some 1, some 1]
        [some 1, some 1, some 1, some 0] = some EFloat.ninf ∧
    some EFloat.ninf ≠ (none : Option EFloat) := by
  refine ⟨?_, by decide⟩
  have hj : jointRows [some 1, some 1, some 1, some 1]
      [some 1, some 1, some 1, some 0] = [(1,1),(1,1),(1,1),(1,0)] := by
    decide
  have heff : effSeq [some 1, some 1, some 1, some 1]
      [some 1, some 1, some 1, some 0] =
      [EFloat.fin 1, EFloat.fin 1, EFloat.fin 1, EFloat.pinf] := by
    rw [effSeq, hj]
    norm_num [EFloat.div]
  have h1 : emean [EFloat.fin 1, EFloat.fin 1] = EFloat.fin 1 := by
    norm_num [emean, esum, EFloat.isna, EFloat.add, EFloat.div]
  have h2 : emean [EFloat.fin 1, EFloat.pinf] = EFloat.pinf := by
    norm_num [emean, esum, EFloat.isna, EFloat.add, EFloat.div]
  rw [_compute_aerobic_decoupling]
  rw [hj, heff]
  norm_num [h1, h2, EFloat.isna, EFloat.sub, EFloat.neg, EFloat.add,
    EFloat.div, EFloat.mul, _round_or_noneE]

/-- Claim C4: on every normalized series with zero rows,
compute_performance_metrics returns the record with all six fields equal
to the undefined marker. -/
theorem claim_C4 (s : Series) (_hn : s.Normalized) (h0 : s.nrows = 0) :
    (compute_performance_metrics s).avg_hr = none ∧
    (compute_performance_metrics s).max_hr = none ∧
    (compute_performance_metrics s).hr_drift_pct = none ∧
    (compute_performance_metrics s).pace_hr_ratio = none ∧
    (compute_performance_metrics s).cadence_consistency_pct = none ∧
    (compute_performance_metrics s).aerobic_decoupling_pct = none := by
  rw [compute_empty h0]
  exact ⟨rfl, rfl, rfl, rfl, rfl, rfl⟩

/-- Witness for C4: the concrete empty series. -/
theorem claim_C4_witness :
    (compute_performance_metrics
        { timestamp := [], heart_rate := [], cadence := [],
          distance := [], speed := [], altitude := [] }).avg_hr = none ∧
    (compute_performance_metrics
        { timestamp := [], heart_rate := [], cadence := [],
          distance := [], speed := [], altitude := [] }).max_hr = none ∧
    (compute_performance_metrics
        { timestamp := [], heart_rate := [], cadence := [],
          distance := [], speed := [], altitude := [] }).hr_drift_pct =
      none ∧
    (compute_performance_metrics
        { timestamp := [], heart_rate := [], cadence := [],
          distance := [], speed := [], altitude := [] }).pace_hr_ratio =
      none ∧
    (compute_performance_metrics
        { timestamp := [], heart_rate := [], cadence := [],
          distance := [], speed := [],
          altitude := [] }).cadence_consistency_pct = none ∧
    (compute_performance_metrics
        { timestamp := [], heart_rate := [], cadence := [],
          distance := [], speed := [],
          altitude := [] }).aerobic_decoupling_pct = none :=
  claim_C4
    { timestamp := [], heart_rate := [], cadence := [],
      distance := [], speed := [], altitude := [] }
    (by decide) rfl

/-- Claim C3: compute_performance_metrics is total on every normalized
series, and every condition that would otherwise be a numeric fault
(empty input, empty aggregation set, zero denominator, short sample set)
is caught by a guard that yields the undefined marker for the affected
field, while on a nonempty series every field is exactly the value of
its own per-channel helper, so the fields are computed independently. -/
theorem claim_C3 (s : Series) (_hn : s.Normalized) :
    (s.nrows = 0 → compute_performance_metrics s = MetricsRecord.undef) ∧
    (s.heart_rate.filterMap id = [] →
      (compute_performance_metrics s).avg_hr = none ∧
      (compute_performance_metrics s).max_hr = none) ∧
    ((s.heart_rate.filterMap id).length < 4 →
      (compute_performance_metrics s).hr_drift_pct = none) ∧
    (mean ((s.heart_rate.filterMap id).take
        ((s.heart_rate.filterMap id).length / 2)) = 0 →
      (compute_performance_metrics s).hr_drift_pct = none) ∧
    (s.speed.filterMap id = [] ∨ s.heart_rate.filterMap id = [] ∨
        mean (s.heart_rate.filterMap id) = 0 →
      (compute_performance_metrics s).pace_hr_ratio = none) ∧
    ((s.cadence.filterMap id).length < 2 ∨
        mean (s.cadence.filterMap id) = 0 →
      (compute_performance_metrics s).cadence_consistency_pct = none) ∧
    ((jointRows s.speed s.heart_rate).length < 4 →
      (compute_performance_metrics s).aerobic_decoupling_pct = none) ∧
    (s.nrows ≠ 0 →
      compute_performance_metrics s =
        { avg_hr := _round_or_none (meanOpt (s.heart_rate.filterMap id))
          max_hr := _round_or_none ((s.heart_rate.filterMap id).max?)
          hr_drift_pct := _compute_hr_drift s.heart_rate
          pace_hr_ratio := _compute_pace_hr_ratio s.speed s.heart_rate
          cadence_consistency_pct :=
            _compute_cadence_consistency s.cadence
          aerobic_decoupling_pct :=
            _compute_aerobic_decoupling s.speed s.heart_rate }) := by
  by_cases h0 : s.nrows = 0
  · rw [compute_empty h0]
    exact ⟨fun _ => rfl, fun _ => ⟨rfl, rfl⟩, fun _ => rfl, fun _ => rfl,
      fun _ => rfl, fun _ => rfl, fun _ => rfl, fun h => absurd h0 h⟩
  · rw [compute_nonempty h0]
    refine ⟨fun h => absurd h h0, ?_, ?_, ?_, ?_, ?_, ?_, fun _ => rfl⟩
    · intro h
      constructor
      · simp [_round_or_none, meanOpt, h]
      · simp [_round_or_none, h]
    · exact fun h => hr_drift_none_short h
    · exact fun h => hr_drift_none_first_zero h
    · exact fun h => pace_none_guard h
    · exact fun h => cadence_none_guard h
    · exact fun h => aerobic_none_short h

/-- Witness for C3: on a one-row normalized series with a missing heart
rate slot, the empty-aggregation guard makes avg_hr undefined. -/
theorem claim_C3_witness :
    (compute_performance_metrics
        { timestamp := [some 1], heart_rate := [none], cadence := [none],
          distance := [none], speed := [none],
          altitude := [none] }).avg_hr = none :=
  ((claim_C3
      { timestamp := [some 1], heart_rate := [none], cadence := [none],
        distance := [none], speed := [none], altitude := [none] }
      (by decide)).2.1 (by decide)).1

/-- Claim C5: avg_hr and max_hr are the rounded arithmetic mean and the
rounded maximum of the non-missing heart_rate values, both undefined
when no heart_rate value is present, in which case the other four fields
are still the values of their own per-channel computations. -/
theorem claim_C5 (s : Series) (hn : s.Normalized) :
    (compute_performance_metrics s).avg_hr =
      _round_or_none (meanOpt (s.heart_rate.filterMap id)) ∧
    (compute_performance_metrics s).max_hr =
      _round_or_none ((s.heart_rate.filterMap id).max?) ∧
    (∀ q : ℚ, meanOpt (s.heart_rate.filterMap id) = some q →
      q = (s.heart_rate.filterMap id).sum /
          ((s.heart_rate.filterMap id).length : ℚ)) ∧
    (∀ m : ℚ, (s.heart_rate.filterMap id).max? = some m →
      m ∈ s.heart_rate.filterMap id ∧
        ∀ x ∈ s.heart_rate.filterMap id, x ≤ m) ∧
    (s.heart_rate.filterMap id = [] →
      (compute_performance_metrics s).avg_hr = none ∧
      (compute_performance_metrics s).max_hr = none ∧
      (compute_performance_metrics s).hr_drift_pct =
        _compute_hr_drift s.heart_rate ∧
      (compute_performance_metrics s).pace_hr_ratio =
        _compute_pace_hr_ratio s.speed s.heart_rate ∧
      (compute_performance_metrics s).cadence_consistency_pct =
        _compute_cadence_consistency s.cadence ∧
      (compute_performance_metrics s).aerobic_decoupling_pct =
        _compute_aerobic_decoupling s.speed s.heart_rate) := by
  have hmean : ∀ q : ℚ, meanOpt (s.heart_rate.filterMap id) = some q →
      q = (s.heart_rate.filterMap id).sum /
        ((s.heart_rate.filterMap id).length : ℚ) :=
    fun q h => meanOpt_eq h
  have hmax : ∀ m : ℚ, (s.heart_rate.filterMap id).max? = some m →
      m ∈ s.heart_rate.filterMap id ∧
        ∀ x ∈ s.heart_rate.filterMap id, x ≤ m :=
    fun m h => max?_spec h
  by_cases h0 : s.nrows = 0
  · have hhr : s.heart_rate = [] := List.length_eq_zero.mp (hn.1.trans h0)
    have hcad : s.cadence = [] :=
      List.length_eq_zero.mp (hn.2.1.trans h0)
    have hsp : s.speed = [] :=
      List.length_eq_zero.mp (hn.2.2.2.1.trans h0)
    rw [compute_empty h0]
    refine ⟨?_, ?_, hmean, hmax, ?_⟩
    · simp [MetricsRecord.undef, hhr, _round_or_none, meanOpt]
    · simp [MetricsRecord.undef, hhr, _round_or_none]
    · intro _
      rw [hhr, hcad, hsp]
      exact ⟨rfl, rfl, rfl, rfl, rfl, rfl⟩
  · rw [compute_nonempty h0]
    refine ⟨rfl, rfl, hmean, hmax, ?_⟩
    intro h
    refine ⟨?_, ?_, rfl, rfl, rfl, rfl⟩
    · simp [_round_or_none, meanOpt, h]
    · simp [_round_or_none, h]

/-- Witness for C5: with heart rates 150 and 160, avg_hr is the rounded
mean 155. -/
theorem claim_C5_witness :
    (compute_performance_metrics
        { timestamp := [some 0, some 1],
          heart_rate := [some 150, some 160], cadence := [none, none],
          distance := [none, none], speed := [none, none],
          altitude := [none, none] }).avg_hr = some 155 := by
  have h :=
    (claim_C5
      { timestamp := [some 0, some 1],
        heart_rate := [some 150, some 160], cadence := [none, none],
        distance := [none, none], speed := [none, none],
        altitude := [none, none] } (by decide)).1
  rw [h]
  have hc : List.filterMap id [some (150 : ℚ), some 160] = [150, 160] := by
    decide
  rw [hc]
  norm_num [meanOpt, mean, _round_or_none, round2, roundHalfEven]
  refine ⟨155, ⟨by simp, rfl⟩, ?_⟩
  norm_num [Int.fract]

/-- Unfolding of _compute_hr_drift past its sample-count guard: with at
least four clean samples both halves are nonempty, so only the zero
first-half mean guard remains. -/
theorem hr_drift_formula {hr : List (Option ℚ)}
    (h4 : 4 ≤ (hr.filterMap id).length) :
    _compute_hr_drift hr =
      (if mean ((hr.filterMap id).take
            ((hr.filterMap id).length / 2)) = 0 then none
       else
         some (round2
           ((mean ((hr.filterMap id).drop
                 ((hr.filterMap id).length / 2)) -
               mean ((hr.filterMap id).take
                 ((hr.filterMap id).length / 2))) /
             mean ((hr.filterMap id).take
                 ((hr.filterMap id).length / 2)) * 100))) := by
  have h4n : ¬ (hr.filterMap id).length < 4 := by omega
  have htake : (hr.filterMap id).take
      ((hr.filterMap id).length / 2) ≠ [] := by
    rw [Ne, List.take_eq_nil_iff]
    push_neg
    refine ⟨by omega, ?_⟩
    intro hc
    rw [hc] at h4
    simp at h4
  have hdrop : (hr.filterMap id).drop
      ((hr.filterMap id).length / 2) ≠ [] := by
    rw [Ne, List.drop_eq_nil_iff]
    omega
  unfold _compute_hr_drift
  rw [if_neg h4n]
  simp only [meanOpt_of_ne_nil htake, meanOpt_of_ne_nil hdrop]

/-- Unfolding of _compute_pace_hr_ratio past its emptiness guards. -/
theorem pace_formula {sp hr : List (Option ℚ)}
    (hsp : sp.filterMap id ≠ []) (hhr : hr.filterMap id ≠ []) :
    _compute_pace_hr_ratio sp hr =
      (if mean (hr.filterMap id) = 0 then none
       else some (round2
         (mean (sp.filterMap id) / mean (hr.filterMap id)))) := by
  unfold _compute_pace_hr_ratio
  rw [if_neg (by push_neg; exact ⟨hsp, hhr⟩)]
  simp only [meanOpt_of_ne_nil hsp, meanOpt_of_ne_nil hhr]

/-- Claim C6: hr_drift_pct is undefined when fewer than four non-missing
heart_rate samples exist; otherwise, with the clean sequence split at the
floored midpoint and first and second the half means, the field is
undefined when first is exactly zero and otherwise equals
((second - first) / first) * 100 rounded to two decimals; the samples
100, 100, 120, 120 give exactly 20. -/
theorem claim_C6 (s : Series) (hn : s.Normalized) :
    ((s.heart_rate.filterMap id).length < 4 →
      (compute_performance_metrics s).hr_drift_pct = none) ∧
    (4 ≤ (s.heart_rate.filterMap id).length →
      (compute_performance_metrics s).hr_drift_pct =
        (if mean ((s.heart_rate.filterMap id).take
              ((s.heart_rate.filterMap id).length / 2)) = 0 then none
         else
           some (round2
             ((mean ((s.heart_rate.filterMap id).drop
                   ((s.heart_rate.filterMap id).length / 2)) -
                 mean ((s.heart_rate.filterMap id).take
                   ((s.heart_rate.filterMap id).length / 2))) /
               mean ((s.heart_rate.filterMap id).take
                   ((s.heart_rate.filterMap id).length / 2)) * 100)))) ∧
    _compute_hr_drift [some 100, some 100, some 120, some 120] =
      some 20 := by
  refine ⟨?_, ?_, ?_⟩
  · intro h
    by_cases h0 : s.nrows = 0
    · rw [compute_empty h0]; rfl
    · rw [compute_nonempty h0]
      exact hr_drift_none_short h
  · intro h4
    have hne : s.heart_rate ≠ [] := by
      apply clean_ne_nil
      intro hc
      rw [hc] at h4
      simp at h4
    have h0 : s.nrows ≠ 0 := nrows_ne_zero_of_hr hn hne
    rw [compute_nonempty h0]
    exact hr_drift_formula h4
  · rw [hr_drift_formula (by simp)]
    norm_num [mean, round2, roundHalfEven, Int.fract,
      filterMap_id_some, filterMap_id_none]

/-- Witness for C6: the concrete 20 percent drift computation through
the full metrics engine. -/
theorem claim_C6_witness :
    (compute_performance_metrics
        { timestamp := [some 0, some 1, some 2, some 3],
          heart_rate := [some 100, some 100, some 120, some 120],
          cadence := [none, none, none, none],
          distance := [none, none, none, none],
          speed := [none, none, none, none],
          altitude := [none, none, none, none] }).hr_drift_pct =
      some 20 := by
  have h :=
    (claim_C6
      { timestamp := [some 0, some 1, some 2, some 3],
        heart_rate := [some 100, some 100, some 120, some 120],
        cadence := [none, none, none, none],
        distance := [none, none, none, none],
        speed := [none, none, none, none],
        altitude := [none, none, none, none] } (by decide)).2.1
      (by simp)
  rw [h]
  norm_num [mean, round2, roundHalfEven, Int.fract,
    filterMap_id_some, filterMap_id_none]

/-- Claim C8: pace_hr_ratio cleans speed and heart_rate independently;
it is undefined when either clean set is empty or the clean heart_rate
mean is exactly zero, and otherwise equals the clean speed mean divided
by the clean heart_rate mean, rounded to two decimals; speeds 2.5, 3.0,
3.5 against heart rates 150, 150, 150 give exactly 0.02. -/
theorem claim_C8 (s : Series) (hn : s.Normalized) :
    ((s.speed.filterMap id = [] ∨ s.heart_rate.filterMap id = []) →
      (compute_performance_metrics s).pace_hr_ratio = none) ∧
    (s.speed.filterMap id ≠ [] → s.heart_rate.filterMap id ≠ [] →
      (mean (s.heart_rate.filterMap id) = 0 →
        (compute_performance_metrics s).pace_hr_ratio = none) ∧
      (mean (s.heart_rate.filterMap id) ≠ 0 →
        (compute_performance_metrics s).pace_hr_ratio =
          some (round2 (mean (s.speed.filterMap id) /
            mean (s.heart_rate.filterMap id))))) ∧
    _compute_pace_hr_ratio [some (5/2), some 3, some (7/2)]
      [some 150, some 150, some 150] = some (1/50) := by
  refine ⟨?_, ?_, ?_⟩
  · intro h
    by_cases h0 : s.nrows = 0
    · rw [compute_empty h0]; rfl
    · rw [compute_nonempty h0]
      rcases h with h | h
      · exact pace_none_guard (Or.inl h)
      · exact pace_none_guard (Or.inr (Or.inl h))
  · intro hsp hhr
    have h0 : s.nrows ≠ 0 :=
      nrows_ne_zero_of_hr hn (clean_ne_nil hhr)
    constructor
    · intro hz
      rw [compute_nonempty h0]
      exact pace_none_guard (Or.inr (Or.inr hz))
    · intro hz
      rw [compute_nonempty h0]
      show _compute_pace_hr_ratio s.speed s.heart_rate = _
      rw [pace_formula hsp hhr, if_neg hz]
  · rw [pace_formula (by simp) (by simp)]
    norm_num [mean, round2, roundHalfEven, Int.fract,
      filterMap_id_some, filterMap_id_none]

/-- Witness for C8: the concrete 0.02 ratio through the full metrics
engine. -/
theorem claim_C8_witness :
    (compute_performance_metrics
        { timestamp := [some 0, some 1, some 2],
          heart_rate := [some 150, some 150, some 150],
          cadence := [none, none, none],
          distance := [none, none, none],
          speed := [some (5/2), some 3, some (7/2)],
          altitude := [none, none, none] }).pace_hr_ratio =
      some (1/50) := by
  have h :=
    ((claim_C8
      { timestamp := [some 0, some 1, some 2],
        heart_rate := [some 150, some 150, some 150],
        cadence := [none, none, none],
        distance := [none, none, none],
        speed := [some (5/2), some 3, some (7/2)],
        altitude := [none, none, none] } (by decide)).2.1
      (by simp) (by simp)).2
      (by norm_num [mean, filterMap_id_some, filterMap_id_none])
  rw [h]
  norm_num [mean, round2, roundHalfEven, Int.fract,
    filterMap_id_some, filterMap_id_none]

/-- Unfolding of _compute_aerobic_decoupling past its joint-row count
guard. -/
theorem aerobic_formula {sp hr : List (Option ℚ)}
    (h4 : 4 ≤ (jointRows sp hr).length) :
    _compute_aerobic_decoupling sp hr =
      (if (emean ((effSeq sp hr).take
            ((jointRows sp hr).length / 2))).isna ∨
          emean ((effSeq sp hr).take
            ((jointRows sp hr).length / 2)) = EFloat.fin 0 ∨
          (emean ((effSeq sp hr).drop
            ((jointRows sp hr).length / 2))).isna then none
       else
         _round_or_noneE
           (EFloat.mul
             (EFloat.div
               (EFloat.sub
                 (emean ((effSeq sp hr).take
                   ((jointRows sp hr).length / 2)))
                 (emean ((effSeq sp hr).drop
                   ((jointRows sp hr).length / 2))))
               (emean ((effSeq sp hr).take
                 ((jointRows sp hr).length / 2))))
             (EFloat.fin 100))) := by
  unfold _compute_aerobic_decoupling
  rw [if_neg (by omega : ¬ (jointRows sp hr).length < 4)]

/-- Claim C7: aerobic_decoupling_pct is built from the rows where both
speed and heart_rate are non-missing; fewer than four joint rows give
the undefined marker; otherwise the per-row efficiencies are split at
the floored midpoint, the field is undefined when the first half mean
efficiency is NaN or exactly zero, and when both half means are the
finite values f and sec with f nonzero the field is
((f - sec) / f) * 100 rounded to two decimals; the joint pairs
(3,150), (3,150), (2,150), (2,150) give exactly 33.33. -/
theorem claim_C7 (s : Series) (hn : s.Normalized) :
    ((jointRows s.speed s.heart_rate).length < 4 →
      (compute_performance_metrics s).aerobic_decoupling_pct = none) ∧
    (4 ≤ (jointRows s.speed s.heart_rate).length →
      (((emean ((effSeq s.speed s.heart_rate).take
            ((jointRows s.speed s.heart_rate).length / 2))).isna = true ∨
          emean ((effSeq s.speed s.heart_rate).take
            ((jointRows s.speed s.heart_rate).length / 2)) =
            EFloat.fin 0 →
        (compute_performance_metrics s).aerobic_decoupling_pct = none) ∧
      (∀ f sec : ℚ,
        emean ((effSeq s.speed s.heart_rate).take
          ((jointRows s.speed s.heart_rate).length / 2)) =
          EFloat.fin f →
        f ≠ 0 →
        emean ((effSeq s.speed s.heart_rate).drop
          ((jointRows s.speed s.heart_rate).length / 2)) =
          EFloat.fin sec →
        (compute_performance_metrics s).aerobic_decoupling_pct =
          some (EFloat.fin (round2 ((f - sec) / f * 100)))))) ∧
    _compute_aerobic_decoupling [some 3, some 3, some 2, some 2]
      [some 150, some 150, some 150, some 150] =
      some (EFloat.fin (3333/100)) := by
  refine ⟨?_, ?_, ?_⟩
  · intro h
    by_cases h0 : s.nrows = 0
    · rw [compute_empty h0]; rfl
    · rw [compute_nonempty h0]
      exact aerobic_none_short h
  · intro h4
    have hle : (jointRows s.speed s.heart_rate).length ≤
        s.speed.length := by
      unfold jointRows
      refine le_trans (List.length_filterMap_le _ _) ?_
      rw [List.length_zip]
      exact Nat.min_le_left _ _
    have hsp : s.speed ≠ [] := by
      intro hc
      have hlen : s.speed.length = 0 := by rw [hc]; rfl
      omega
    have h0 : s.nrows ≠ 0 := nrows_ne_zero_of_speed hn hsp
    rw [compute_nonempty h0]
    constructor
    · intro h
      show _compute_aerobic_decoupling s.speed s.heart_rate = none
      rw [aerobic_formula h4]
      rcases h with h | h
      · exact if_pos (Or.inl h)
      · exact if_pos (Or.inr (Or.inl h))
    · intro f sec hf hz hs
      show _compute_aerobic_decoupling s.speed s.heart_rate = _
      rw [aerobic_formula h4, hf, hs]
      rw [if_neg (by simp [EFloat.isna, hz])]
      rw [EFloat.sub_fin, EFloat.div_fin hz, EFloat.mul_fin]
      rfl
  · have hj : jointRows [some (3:ℚ), some 3, some 2, some 2]
        [some (150:ℚ), some 150, some 150, some 150] =
        [(3,150),(3,150),(2,150),(2,150)] := by decide
    have heff : effSeq [some (3:ℚ), some 3, some 2, some 2]
        [some (150:ℚ), some 150, some 150, some 150] =
        [EFloat.fin (1/50), EFloat.fin (1/50),
          EFloat.fin (1/75), EFloat.fin (1/75)] := by
      rw [effSeq, hj]
      norm_num [EFloat.div]
    have h1 : emean [EFloat.fin ((1:ℚ)/50), EFloat.fin (1/50)] =
        EFloat.fin (1/50) := by
      norm_num [emean, esum, EFloat.isna, EFloat.add, EFloat.div]
    have h2 : emean [EFloat.fin ((1:ℚ)/75), EFloat.fin (1/75)] =
        EFloat.fin (1/75) := by
      norm_num [emean, esum, EFloat.isna, EFloat.add, EFloat.div]
    rw [aerobic_formula (by rw [hj]; simp)]
    rw [heff, hj]
    norm_num [h1, h2, EFloat.isna]
    rw [EFloat.sub_fin, EFloat.div_fin (by norm_num), EFloat.mul_fin]
    show some (EFloat.fin (round2 ((1/50 - 1/75) / (1/50) * 100))) = _
    norm_num [round2, roundHalfEven, Int.fract]

/-- Witness for C7: the concrete 33.33 decoupling computation. -/
theorem claim_C7_witness :
    _compute_aerobic_decoupling [some 3, some 3, some 2, some 2]
      [some 150, some 150, some 150, some 150] =
      some (EFloat.fin (3333/100)) :=
  (claim_C7
    { timestamp := [], heart_rate := [], cadence := [],
      distance := [], speed := [], altitude := [] } (by decide)).2.2

/-- Unfolding of _compute_cadence_consistency past its guards. -/
theorem cadence_formula {cad : List (Option ℚ)}
    (h2 : 2 ≤ (cad.filterMap id).length)
    (hz : mean (cad.filterMap id) ≠ 0) :
    _compute_cadence_consistency cad =
      some (round2R (max 0 (100 -
        sampleStd (cad.filterMap id) /
          ((mean (cad.filterMap id) : ℚ) : ℝ) * 100))) := by
  unfold _compute_cadence_consistency
  rw [if_neg (by omega : ¬ (cad.filterMap id).length < 2), if_neg hz]

/-- Evaluation of the steady-cadence example: zero variance, zero
standard deviation, consistency exactly 100. -/
theorem cadence_steady :
    _compute_cadence_consistency [some 80, some 80, some 80, some 80] =
      some 100 := by
  have hm : mean (List.filterMap id
      [some (80:ℚ), some 80, some 80, some 80]) = 80 := by
    norm_num [mean, filterMap_id_some]
  rw [cadence_formula (by simp) (by rw [hm]; norm_num)]
  have hv : sampleVar (List.filterMap id
      [some (80:ℚ), some 80, some 80, some 80]) = 0 := by
    norm_num [sampleVar, mean, filterMap_id_some]
  have hstd : sampleStd (List.filterMap id
      [some (80:ℚ), some 80, some 80, some 80]) = 0 := by
    rw [sampleStd, hv]
    norm_num
  rw [hstd, hm]
  have hin : (0:ℝ) / ((80:ℚ):ℝ) * 100 = 0 := by norm_num
  rw [hin]
  have hmax : max (0:ℝ) (100 - 0) = 100 := by norm_num
  rw [hmax]
  have hround : roundHalfEvenR ((100:ℝ) * 100) = 10000 := by
    have h100 : ((100:ℝ) * 100) = 10000 := by norm_num
    rw [roundHalfEvenR, h100]
    norm_num
  rw [round2R, hround]
  norm_num

/-- Claim C9: cadence_consistency_pct is undefined with fewer than two
non-missing cadence samples or a zero clean mean, and otherwise equals
max(0, 100 - (stddev / mean) * 100) with stddev the sample standard
deviation, rounded to two decimals; every defined value is nonnegative,
and the zero-variance input 80, 80, 80, 80 gives exactly 100. -/
theorem claim_C9 (s : Series) (hn : s.Normalized) :
    ((s.cadence.filterMap id).length < 2 →
      (compute_performance_metrics s).cadence_consistency_pct = none) ∧
    (2 ≤ (s.cadence.filterMap id).length →
      (mean (s.cadence.filterMap id) = 0 →
        (compute_performance_metrics s).cadence_consistency_pct =
          none) ∧
      (mean (s.cadence.filterMap id) ≠ 0 →
        (compute_performance_metrics s).cadence_consistency_pct =
          some (round2R (max 0 (100 -
            sampleStd (s.cadence.filterMap id) /
              ((mean (s.cadence.filterMap id) : ℚ) : ℝ) * 100))))) ∧
    (∀ x : ℝ,
      (compute_performance_metrics s).cadence_consistency_pct =
        some x → 0 ≤ x) ∧
    _compute_cadence_consistency [some 80, some 80, some 80, some 80] =
      some 100 := by
  refine ⟨?_, ?_, ?_, cadence_steady⟩
  · intro h
    by_cases h0 : s.nrows = 0
    · rw [compute_empty h0]; rfl
    · rw [compute_nonempty h0]
      exact cadence_none_guard (Or.inl h)
  · intro h2
    have hcad : s.cadence ≠ [] := by
      apply clean_ne_nil
      intro hc
      rw [hc] at h2
      simp at h2
    have h0 : s.nrows ≠ 0 := nrows_ne_zero_of_cadence hn hcad
    constructor
    · intro hz
      rw [compute_nonempty h0]
      exact cadence_none_guard (Or.inr hz)
    · intro hz
      rw [compute_nonempty h0]
      exact cadence_formula h2 hz
  · intro x hx
    by_cases h0 : s.nrows = 0
    · rw [compute_empty h0] at hx
      cases hx
    · rw [compute_nonempty h0] at hx
      have hx2 : _compute_cadence_consistency s.cadence = some x := hx
      by_cases h2 : (s.cadence.filterMap id).length < 2
      · rw [cadence_none_guard (Or.inl h2)] at hx2
        cases hx2
      · by_cases hz : mean (s.cadence.filterMap id) = 0
        · rw [cadence_none_guard (Or.inr hz)] at hx2
          cases hx2
        · rw [cadence_formula (by omega) hz] at hx2
          cases hx2
          exact round2R_nonneg (le_max_left 0 _)

/-- Witness for C9: the steady-cadence computation, instantiated through
the claim theorem. -/
theorem claim_C9_witness :
    _compute_cadence_consistency [some 80, some 80, some 80, some 80] =
      some 100 :=
  (claim_C9
    { timestamp := [], heart_rate := [], cadence := [],
      distance := [], speed := [], altitude := [] } (by decide)).2.2.2

/-- Frame lemma for the one mutating helper: the eff column assignment
of analytics.py line 90 writes only into the temp object freshly
allocated at the end of the heap, so every object already on the heap is
unchanged. -/
theorem aerobic_st_frame (h : Heap) (dfi j : ℕ) (hj : j < h.length) :
    ((_compute_aerobic_decoupling_st h dfi).2)[j]? = h[j]? := by
  have happ : ∀ d : DF, (h ++ [d])[j]? = h[j]? :=
    fun d => List.getElem?_append_left hj
  unfold _compute_aerobic_decoupling_st
  dsimp only
  split
  · exact happ _
  · split
    · rw [List.getElem?_set_ne (by omega : h.length ≠ j)]
      exact happ _
    · rw [List.getElem?_set_ne (by omega : h.length ≠ j)]
      exact happ _

/-- Claim C10: compute_performance_metrics leaves its argument (and
every other object already on the heap) unchanged; the only column
assignment in the engine targets the freshly allocated temp frame of
the aerobic helper, never the input. -/
theorem claim_C10 (h : Heap) (dfi j : ℕ) (hj : j < h.length) :
    ((compute_performance_metrics_st h dfi).2)[j]? = h[j]? := by
  unfold compute_performance_metrics_st
  dsimp only
  split
  · rfl
  · exact aerobic_st_frame h dfi j hj

/-- Witness for C10: a one-object heap is untouched by the metrics
computation. -/
theorem claim_C10_witness :
    ((compute_performance_metrics_st
        [[("timestamp", [EFloat.fin 0])]] 0).2)[0]? =
      [[("timestamp", [EFloat.fin 0])]][0]? :=
  claim_C10 [[("timestamp", [EFloat.fin 0])]] 0 0 (by decide)

end Garmin
